import Mathlib

/-!
Shallow embedding of the `umbeluzi/ratelimit` Go library.

Collaborators are modelled as explicit state:
* `Store` embeds the Counter Store capability (per-key counts and TTLs,
  with per-operation fault injection mirroring a failing backend);
* `Config` embeds the Parameter Source capability for the window/bucket
  algorithms (each read returns the Go `(value, error)` pair);
* `TBConfig` extends it with the Token Bucket's mutable token balance and
  last-refill timestamp.

Durations and timestamps are `Int` nanoseconds, matching Go's
`time.Duration`/`time.Time` arithmetic at the granularity the algorithms
use.  Each `Allow` is translated statement-by-statement from its Go
source, threading the store (and, for Token Bucket, the config) as state
and returning the Go `(bool, error)` pair.  The Leaky Bucket's deferred
leak goroutine is recorded as a list of scheduled leak keys.
-/

abbrev Key := String

abbrev Err := String

/-- Counter Store state: per-key counters and TTLs, plus an optional
injected fault for each operation of the `Storage` interface. -/
structure Store where
  counts : Key → Int
  ttls : Key → Option Int
  incrementErr : Option Err
  setTTLErr : Option Err
  resetErr : Option Err

/-- `Storage.Increment`: atomically increments and returns the
post-increment count; on a backend fault, returns the error and leaves
the state unchanged. -/
def Store.increment (s : Store) (key : Key) : (Int × Option Err) × Store :=
  match s.incrementErr with
  | some e => ((0, some e), s)
  | none =>
      ((s.counts key + 1, none),
       { s with counts := fun k => if k = key then s.counts key + 1 else s.counts k })

/-- `Storage.SetTTL`: (re)sets the key's expiry; on a backend fault,
returns the error and leaves the state unchanged. -/
def Store.setTTL (s : Store) (key : Key) (d : Int) : Option Err × Store :=
  match s.setTTLErr with
  | some e => (some e, s)
  | none => (none, { s with ttls := fun k => if k = key then some d else s.ttls k })

/-- `Storage.Reset`: sets the key's count to 0. -/
def Store.reset (s : Store) (key : Key) : Option Err × Store :=
  match s.resetErr with
  | some e => (some e, s)
  | none => (none, { s with counts := fun k => if k = key then 0 else s.counts k })

/-- Parameter Source state for the window/bucket algorithms: the three
tunables, each read paired with an optional injected error (mirroring the
Go `(int, error)` / `(time.Duration, error)` returns). -/
structure Config where
  maxRequests : Int
  maxRequestsErr : Option Err
  interval : Int
  intervalErr : Option Err
  burstLimit : Int
  burstLimitErr : Option Err

/-- The first error among the three configuration reads, in the order the
algorithms perform them (`MaxRequests`, `Interval`, `BurstLimit`). -/
def Config.firstErr (c : Config) : Option Err :=
  match c.maxRequestsErr with
  | some e => some e
  | none =>
      match c.intervalErr with
      | some e => some e
      | none => c.burstLimitErr

/-- `FixedWindow.Allow` from `fixedwindow/fixedwindow.go`: read
`MaxRequests`, `Interval`, `BurstLimit` (propagating the first error),
increment the key, set the TTL to the interval when the post-increment
count is exactly 1, and deny when the count exceeds
`maxRequests + burstLimit`. -/
def FixedWindow.Allow (cfg : Config) (s : Store) (key : Key) : (Bool × Option Err) × Store :=
  match cfg.maxRequestsErr with
  | some e => ((false, some e), s)
  | none =>
  match cfg.intervalErr with
  | some e => ((false, some e), s)
  | none =>
  match cfg.burstLimitErr with
  | some e => ((false, some e), s)
  | none =>
  let maxRequests := cfg.maxRequests
  let window := cfg.interval
  let burstLimit := cfg.burstLimit
  match s.increment key with
  | ((_, some e), s1) => ((false, some e), s1)
  | ((count, none), s1) =>
  let step :=
    if count = 1 then
      match s1.setTTL key window with
      | (some e, s2) => (some e, s2)
      | (none, s2) => (none, s2)
    else (none, s1)
  match step with
  | (some e, s2) => ((false, some e), s2)
  | (none, s2) =>
  if count > maxRequests + burstLimit then ((false, none), s2)
  else ((true, none), s2)

/-- `SlidingWindow.Allow` from `slidingwindow/slidingwindow.go`: reads the
three tunables, increments the key, sets the TTL on the first request, and
denies when the post-increment count exceeds `maxRequests + burstLimit`
(the source contains no weighted-window computation). -/
def SlidingWindow.Allow (cfg : Config) (s : Store) (key : Key) : (Bool × Option Err) × Store :=
  match cfg.maxRequestsErr with
  | some e => ((false, some e), s)
  | none =>
  match cfg.intervalErr with
  | some e => ((false, some e), s)
  | none =>
  match cfg.burstLimitErr with
  | some e => ((false, some e), s)
  | none =>
  let maxRequests := cfg.maxRequests
  let window := cfg.interval
  let burstLimit := cfg.burstLimit
  match s.increment key with
  | ((_, some e), s1) => ((false, some e), s1)
  | ((count, none), s1) =>
  let step :=
    if count = 1 then
      match s1.setTTL key window with
      | (some e, s2) => (some e, s2)
      | (none, s2) => (none, s2)
    else (none, s1)
  match step with
  | (some e, s2) => ((false, some e), s2)
  | (none, s2) =>
  if count > maxRequests + burstLimit then ((false, none), s2)
  else ((true, none), s2)

/-- `LeakyBucket.Allow` from `leakybucket/leakybucket.go`: identical to
Fixed Window, except that on the admit path it additionally spawns a
goroutine that resets the key after the interval.  The scheduled leak is
recorded as the returned list of keys (empty on every deny/error path). -/
def LeakyBucket.Allow (cfg : Config) (s : Store) (key : Key) :
    (Bool × Option Err) × Store × List Key :=
  match cfg.maxRequestsErr with
  | some e => ((false, some e), s, [])
  | none =>
  match cfg.intervalErr with
  | some e => ((false, some e), s, [])
  | none =>
  match cfg.burstLimitErr with
  | some e => ((false, some e), s, [])
  | none =>
  let maxRequests := cfg.maxRequests
  let interval := cfg.interval
  let burstLimit := cfg.burstLimit
  match s.increment key with
  | ((_, some e), s1) => ((false, some e), s1, [])
  | ((count, none), s1) =>
  let step :=
    if count = 1 then
      match s1.setTTL key interval with
      | (some e, s2) => (some e, s2)
      | (none, s2) => (none, s2)
    else (none, s1)
  match step with
  | (some e, s2) => ((false, some e), s2, [])
  | (none, s2) =>
  if count > maxRequests + burstLimit then ((false, none), s2, [])
  else ((true, none), s2, [key])

/-- Runs `n` sequential `FixedWindow.Allow` calls on one key, threading
the store; returns the list of admit decisions and the final store. -/
def FixedWindow.allowRun : Nat → Config → Store → Key → List Bool × Store
  | 0, _, s, _ => ([], s)
  | n + 1, cfg, s, key =>
      match FixedWindow.Allow cfg s key with
      | ((b, _), s1) =>
          match FixedWindow.allowRun n cfg s1 key with
          | (bs, s2) => (b :: bs, s2)

/-- The example configuration: `maxRequests=5`, `interval=1m`
(60000000000ns), `burstLimit=2`, no faults (as in
`config.NewStatic(5, time.Minute, 2, ...)`). -/
def exampleCfg : Config :=
  { maxRequests := 5, maxRequestsErr := none
    interval := 60000000000, intervalErr := none
    burstLimit := 2, burstLimitErr := none }

/-- A fresh fault-free store: every key at count 0 with no TTL. -/
def freshStore : Store :=
  { counts := fun _ => 0, ttls := fun _ => none
    incrementErr := none, setTTLErr := none, resetErr := none }

/-- Parameter Source state for the Token Bucket: the three tunables plus
the mutable token balance and last-refill timestamp, each read or write
paired with an optional injected error. -/
structure TBConfig where
  maxRequests : Int
  maxRequestsErr : Option Err
  interval : Int
  intervalErr : Option Err
  burstLimit : Int
  burstLimitErr : Option Err
  tokens : Int
  tokensErr : Option Err
  setTokensErr : Option Err
  lastRefill : Int
  lastRefillErr : Option Err
  setLastRefillErr : Option Err

/-- `Config.SetTokens`: stores the new balance, or fails without
mutating. -/
def TBConfig.setTokensOp (c : TBConfig) (v : Int) : Option Err × TBConfig :=
  match c.setTokensErr with
  | some e => (some e, c)
  | none => (none, { c with tokens := v })

/-- `Config.SetLastRefill`: stores the new timestamp, or fails without
mutating. -/
def TBConfig.setLastRefillOp (c : TBConfig) (t : Int) : Option Err × TBConfig :=
  match c.setLastRefillErr with
  | some e => (some e, c)
  | none => (none, { c with lastRefill := t })

/-- `TokenBucket.Allow` from `tokenbucket/tokenbucket.go`: read `Tokens`
and `BurstLimit` (propagating errors); if the balance is positive,
decrement it (the `SetTokens` error is discarded, as in the source) and
admit without touching the Counter Store; otherwise increment the key's
overflow counter and deny exactly when the post-increment count exceeds
`burstLimit`. -/
def TokenBucket.Allow (cfg : TBConfig) (s : Store) (key : Key) :
    (Bool × Option Err) × TBConfig × Store :=
  match cfg.tokensErr with
  | some e => ((false, some e), cfg, s)
  | none =>
  match cfg.burstLimitErr with
  | some e => ((false, some e), cfg, s)
  | none =>
  let tokens := cfg.tokens
  let burstLimit := cfg.burstLimit
  if tokens > 0 then
    ((true, none), (cfg.setTokensOp (tokens - 1)).2, s)
  else
  match s.increment key with
  | ((_, some e), s1) => ((false, some e), cfg, s1)
  | ((count, none), s1) =>
  if count > burstLimit then ((false, none), cfg, s1)
  else ((true, none), cfg, s1)

/-- `TokenBucket.refillTokens` from `tokenbucket/tokenbucket.go`, as a
function of the current time `now`: if the `Interval` read succeeds,
compute `tokensToAdd = elapsed / interval` (Go's truncating integer
division on `time.Duration`), add it to the balance, cap at
`MaxRequests`, and store the new balance and `now` as the last refill
(the errors of `LastRefill`, `Tokens`, `MaxRequests`, `SetTokens` and
`SetLastRefill` are all discarded, as in the source). -/
def TokenBucket.refillTokens (cfg : TBConfig) (now : Int) : TBConfig :=
  match cfg.intervalErr with
  | some _ => cfg
  | none =>
      let interval := cfg.interval
      let lastRefill := cfg.lastRefill
      let elapsed := now - lastRefill
      let tokensToAdd := Int.tdiv elapsed interval
      let tokens := cfg.tokens + tokensToAdd
      let maxTokens := cfg.maxRequests
      let tokens := if tokens > maxTokens then maxTokens else tokens
      let c1 := (cfg.setTokensOp tokens).2
      (c1.setLastRefillOp now).2

/-- Runtime state of a `TokenBucket` instance relevant to shutdown: the
`stopChannel` close flag. -/
structure TokenBucketProc where
  stopClosed : Bool

/-- `TokenBucket.Stop` from `tokenbucket/tokenbucket.go`: executes
`close(tb.stopChannel)`.  Per the Go language specification, closing an
already-closed channel causes a run-time panic, modelled as the
exceptional result. -/
def TokenBucket.Stop (tb : TokenBucketProc) : Except Err TokenBucketProc :=
  if tb.stopClosed then Except.error ("panic: close of closed channel")
  else Except.ok { stopClosed := true }

/-- Go's `time.NewTicker`: panics when the duration is not positive. -/
def newTicker (d : Int) : Except Err Unit :=
  if d ≤ 0 then Except.error ("panic: non-positive interval for NewTicker")
  else Except.ok ()

/-- `TokenBucket.startRefill`: reads `Interval` with the error discarded
(`interval, _ := tb.config.Interval(...)`) and immediately constructs a
ticker from the returned duration. -/
def TokenBucket.startRefill (cfg : TBConfig) : Except Err Unit :=
  newTicker cfg.interval

/-- `tokenbucket.New`: builds the instance and calls `startRefill`; there
is no error return, so the only failure mode is the `NewTicker` panic. -/
def TokenBucket.New (cfg : TBConfig) : Except Err TokenBucketProc :=
  match TokenBucket.startRefill cfg with
  | Except.error e => Except.error e
  | Except.ok _ => Except.ok { stopClosed := false }

/-- Specification model of the intended Sliding Window admission rule,
following the spec's words: from the per-key current-window count, the
previous window's final count, and the elapsed fraction of the current
window, compute
`estimatedCount = currentWindowCount + previousWindowCount * (1 - elapsedFractionOfCurrentWindow)`
and admit exactly when `estimatedCount ≤ maxRequests + burstLimit`. -/
def slidingWindowSpecAllow (maxRequests burstLimit : Int)
    (currentWindowCount previousWindowCount : Int) (elapsed window : Int) : Bool :=
  let estimatedCount : ℚ :=
    (currentWindowCount : ℚ) +
      (previousWindowCount : ℚ) * (1 - (elapsed : ℚ) / (window : ℚ))
  decide (estimatedCount ≤ (maxRequests : ℚ) + (burstLimit : ℚ))

/-- Concrete Token Bucket configuration with a positive balance. -/
def tbExampleCfg : TBConfig :=
  { maxRequests := 5, maxRequestsErr := none
    interval := 60000000000, intervalErr := none
    burstLimit := 2, burstLimitErr := none
    tokens := 3, tokensErr := none, setTokensErr := none
    lastRefill := 0, lastRefillErr := none, setLastRefillErr := none }

/-- Concrete Token Bucket configuration with an exhausted balance. -/
def tbZeroCfg : TBConfig :=
  { tbExampleCfg with tokens := 0 }

/-- Token Bucket configuration for the refill scenario: `interval = 10`,
balance 0, last refill at time 0. -/
def tbRefillCfg : TBConfig :=
  { tbExampleCfg with interval := 10, tokens := 0 }

/-- A store whose `Increment` fails. -/
def errStore : Store :=
  { freshStore with incrementErr := some ("boom") }

/-- Configuration whose `MaxRequests` read fails. -/
def cfgMaxErr : Config :=
  { exampleCfg with maxRequestsErr := some ("down") }

/-- Token Bucket configuration with a non-positive interval. -/
def tbBadCfg : TBConfig :=
  { tbExampleCfg with interval := 0 }

/-- C4: for every configuration, store state and key, `SlidingWindow.Allow`
returns the same admit/error result and produces the same store as
`FixedWindow.Allow` — the two embedded functions are extensionally
equal. -/
theorem slidingwindow_eq_fixedwindow (cfg : Config) (s : Store) (key : Key) :
    SlidingWindow.Allow cfg s key = FixedWindow.Allow cfg s key := rfl

/-- C1 (divergence witness): with `maxRequests=5`, `burstLimit=2`,
`interval=1m`, 7 sequential `Allow` calls on a fresh key are ALL admitted
by `FixedWindow.Allow` (the deny threshold is `count > 5 + 2 = 7`), not
just the first 5 as the spec scenario and the repository's own test
expect. -/
theorem fixedwindow_example_admits_all_seven :
    (FixedWindow.allowRun 7 exampleCfg freshStore ("user")).1
      = [true, true, true, true, true, true, true] := rfl

/-- C6 (divergence witness): the first `Stop` closes the stop channel;
the second `Stop` executes `close` on an already-closed channel, which
panics — `Stop` is not idempotent. -/
theorem tokenbucket_stop_twice_panics :
    TokenBucket.Stop { stopClosed := false } = Except.ok { stopClosed := true } ∧
    (TokenBucket.Stop { stopClosed := false } >>= TokenBucket.Stop)
      = Except.error ("panic: close of closed channel") := by
  exact ⟨rfl, rfl⟩

/-- C7 (counterexample): polling `refillTokens` at times 5 and 10 with
`interval = 10` and `lastRefill = 0` grants 0 tokens (the time 5 poll
overwrites `lastRefill`, discarding the elapsed credit), while a single
refill at time 10 grants 1 token — the second poll occurred 5 < interval
after the first, yet the totals differ, refuting idempotence under
repeated polling. -/
theorem tokenbucket_refill_not_drift_free :
    (TokenBucket.refillTokens (TokenBucket.refillTokens tbRefillCfg 5) 10).tokens = 0 ∧
    (TokenBucket.refillTokens tbRefillCfg 10).tokens = 1 := by
  exact ⟨rfl, rfl⟩

/-- C3 (counterexample): a state in which the weighted-window rule and
the source disagree.  The store holds current-window count 0 for the key;
taking the previous window's final count as 8 at the very start of a
60s window, the spec's `estimatedCount = 0 + 8 * (1 - 0) = 8` exceeds
`maxRequests + burstLimit = 7`, so the spec formula denies — but the
source, which keeps no previous-window state at all, admits. -/
theorem slidingwindow_ignores_previous_window :
    (SlidingWindow.Allow exampleCfg freshStore ("k")).1.1 = true ∧
    slidingWindowSpecAllow 5 2 0 8 0 60000000000 = false := by
  refine ⟨rfl, ?_⟩
  norm_num [slidingWindowSpecAllow]

/-- C2: with every store/config call succeeding, `FixedWindow.Allow`
increments the key's counter; when the post-increment count is exactly 1
it sets the key's TTL to the configured interval; the returned error is
nil and it denies exactly when the post-increment count exceeds
`maxRequests + burstLimit`. -/
theorem fixedwindow_allow_spec (cfg : Config) (s : Store) (key : Key)
    (hmr : cfg.maxRequestsErr = none) (hiv : cfg.intervalErr = none)
    (hbl : cfg.burstLimitErr = none) (hinc : s.incrementErr = none)
    (httl : s.setTTLErr = none) :
    (FixedWindow.Allow cfg s key).2.counts key = s.counts key + 1 ∧
    (s.counts key + 1 = 1 →
      (FixedWindow.Allow cfg s key).2.ttls key = some cfg.interval) ∧
    (FixedWindow.Allow cfg s key).1.2 = none ∧
    ((FixedWindow.Allow cfg s key).1.1 = false ↔
      cfg.maxRequests + cfg.burstLimit < s.counts key + 1) := by
  simp only [FixedWindow.Allow, Store.increment, Store.setTTL, hmr, hiv, hbl, hinc, httl]
  by_cases h1 : s.counts key + 1 = 1
  · by_cases h2 : cfg.maxRequests + cfg.burstLimit < 1 <;> simp [h1, h2]
  · by_cases h2 : s.counts key + 1 > cfg.maxRequests + cfg.burstLimit <;>
      simp [h1, h2]

/-- C2 witness: the spec theorem instantiated at the example
configuration, a fresh store and a concrete key. -/
theorem fixedwindow_allow_spec_witness :
    (FixedWindow.Allow exampleCfg freshStore ("k")).2.counts ("k")
        = freshStore.counts ("k") + 1 ∧
    (FixedWindow.Allow exampleCfg freshStore ("k")).2.ttls ("k")
        = some exampleCfg.interval ∧
    (FixedWindow.Allow exampleCfg freshStore ("k")).1.2 = none ∧
    ((FixedWindow.Allow exampleCfg freshStore ("k")).1.1 = false ↔
      exampleCfg.maxRequests + exampleCfg.burstLimit < freshStore.counts ("k") + 1) :=
  ⟨(fixedwindow_allow_spec exampleCfg freshStore ("k") rfl rfl rfl rfl rfl).1,
   (fixedwindow_allow_spec exampleCfg freshStore ("k") rfl rfl rfl rfl rfl).2.1 rfl,
   (fixedwindow_allow_spec exampleCfg freshStore ("k") rfl rfl rfl rfl rfl).2.2.1,
   (fixedwindow_allow_spec exampleCfg freshStore ("k") rfl rfl rfl rfl rfl).2.2.2⟩

/-- C3 (amended): with every store/config call succeeding,
`SlidingWindow.Allow` performs no weighted-window computation — it
increments the per-key counter, returns nil error, and denies exactly
when the post-increment counter exceeds `maxRequests + burstLimit`,
exactly as Fixed Window. -/
theorem slidingwindow_allow_amended (cfg : Config) (s : Store) (key : Key)
    (hmr : cfg.maxRequestsErr = none) (hiv : cfg.intervalErr = none)
    (hbl : cfg.burstLimitErr = none) (hinc : s.incrementErr = none)
    (httl : s.setTTLErr = none) :
    (SlidingWindow.Allow cfg s key).2.counts key = s.counts key + 1 ∧
    (SlidingWindow.Allow cfg s key).1.2 = none ∧
    ((SlidingWindow.Allow cfg s key).1.1 = false ↔
      cfg.maxRequests + cfg.burstLimit < s.counts key + 1) := by
  simp only [SlidingWindow.Allow, Store.increment, Store.setTTL, hmr, hiv, hbl, hinc, httl]
  by_cases h1 : s.counts key + 1 = 1
  · by_cases h2 : cfg.maxRequests + cfg.burstLimit < 1 <;> simp [h1, h2]
  · by_cases h2 : s.counts key + 1 > cfg.maxRequests + cfg.burstLimit <;>
      simp [h1, h2]

/-- C3 amended-theorem witness at concrete inputs. -/
theorem slidingwindow_allow_amended_witness :
    (SlidingWindow.Allow exampleCfg freshStore ("u")).2.counts ("u")
        = freshStore.counts ("u") + 1 ∧
    (SlidingWindow.Allow exampleCfg freshStore ("u")).1.2 = none ∧
    ((SlidingWindow.Allow exampleCfg freshStore ("u")).1.1 = false ↔
      exampleCfg.maxRequests + exampleCfg.burstLimit < freshStore.counts ("u") + 1) :=
  slidingwindow_allow_amended exampleCfg freshStore ("u") rfl rfl rfl rfl rfl

/-- C5: with the relevant config/store calls succeeding,
`TokenBucket.Allow` with a positive balance decrements the balance by one
and admits, leaving the Counter Store untouched; with a zero balance it
increments the key's overflow counter, leaves the config untouched,
returns nil error, and denies exactly when the post-increment overflow
count exceeds `burstLimit`. -/
theorem tokenbucket_allow_spec (cfg : TBConfig) (s : Store) (key : Key)
    (htk : cfg.tokensErr = none) (hbl : cfg.burstLimitErr = none)
    (hst : cfg.setTokensErr = none) (hinc : s.incrementErr = none) :
    (0 < cfg.tokens →
      TokenBucket.Allow cfg s key
        = ((true, none), { cfg with tokens := cfg.tokens - 1 }, s)) ∧
    (cfg.tokens = 0 →
      (TokenBucket.Allow cfg s key).2.2.counts key = s.counts key + 1 ∧
      (TokenBucket.Allow cfg s key).2.1 = cfg ∧
      (TokenBucket.Allow cfg s key).1.2 = none ∧
      ((TokenBucket.Allow cfg s key).1.1 = false ↔
        cfg.burstLimit < s.counts key + 1)) := by
  constructor
  · intro hpos
    simp only [TokenBucket.Allow, TBConfig.setTokensOp, htk, hbl, hst]
    rw [if_pos hpos]
  · intro hzero
    have hng : ¬ cfg.tokens > 0 := by omega
    simp only [TokenBucket.Allow, TBConfig.setTokensOp, Store.increment,
      htk, hbl, hst, hinc, if_neg hng]
    by_cases h2 : s.counts key + 1 > cfg.burstLimit <;> simp [h2]

/-- C5 witness: the spec theorem instantiated at a concrete positive
balance configuration, a fresh store and a concrete key. -/
theorem tokenbucket_allow_spec_witness :
    TokenBucket.Allow tbExampleCfg freshStore ("k")
        = ((true, none), { tbExampleCfg with tokens := tbExampleCfg.tokens - 1 },
           freshStore) ∧
    (TokenBucket.Allow tbZeroCfg freshStore ("k")).2.2.counts ("k")
        = freshStore.counts ("k") + 1 ∧
    ((TokenBucket.Allow tbZeroCfg freshStore ("k")).1.1 = false ↔
      tbZeroCfg.burstLimit < freshStore.counts ("k") + 1) :=
  ⟨(tokenbucket_allow_spec tbExampleCfg freshStore ("k") rfl rfl rfl rfl).1 (by decide),
   ((tokenbucket_allow_spec tbZeroCfg freshStore ("k") rfl rfl rfl rfl).2 rfl).1,
   ((tokenbucket_allow_spec tbZeroCfg freshStore ("k") rfl rfl rfl rfl).2 rfl).2.2.2⟩

/-- C7 (amended): with the `Interval` read succeeding and the writes not
faulted, a refill at time `now` with nonnegative elapsed time sets the
balance to `min (tokens + floor(elapsed / interval)) maxRequests` and
records `now` as the last refill; idempotence under repeated polling does
NOT hold (see the counterexample theorem), because `lastRefill` is
overwritten even when zero tokens were added. -/
theorem tokenbucket_refill_amended (cfg : TBConfig) (now : Int)
    (hiv : cfg.intervalErr = none) (hst : cfg.setTokensErr = none)
    (hsr : cfg.setLastRefillErr = none) (hpos : 0 < cfg.interval)
    (hel : 0 ≤ now - cfg.lastRefill) :
    (TokenBucket.refillTokens cfg now).tokens
        = min (cfg.tokens + Int.fdiv (now - cfg.lastRefill) cfg.interval)
            cfg.maxRequests ∧
    (TokenBucket.refillTokens cfg now).lastRefill = now := by
  have hdiv : Int.fdiv (now - cfg.lastRefill) cfg.interval
      = Int.tdiv (now - cfg.lastRefill) cfg.interval :=
    Int.fdiv_eq_tdiv hel (le_of_lt hpos)
  simp only [TokenBucket.refillTokens, TBConfig.setTokensOp, TBConfig.setLastRefillOp,
    hiv, hst, hsr, hdiv]
  constructor
  · rw [min_def]
    split_ifs <;> omega
  · trivial

/-- C7 amended-theorem witness at a concrete configuration and time. -/
theorem tokenbucket_refill_amended_witness :
    (TokenBucket.refillTokens tbRefillCfg 25).tokens
        = min (tbRefillCfg.tokens + Int.fdiv (25 - tbRefillCfg.lastRefill) tbRefillCfg.interval)
            tbRefillCfg.maxRequests ∧
    (TokenBucket.refillTokens tbRefillCfg 25).lastRefill = 25 :=
  tokenbucket_refill_amended tbRefillCfg 25 rfl rfl rfl (by decide) (by decide)

/-- C8: for each of the four algorithms, when the Counter Store's
`Increment` returns an error (and control reaches the increment), `Allow`
returns that same error with `admitted = false`. -/
theorem allow_increment_error_fails_closed :
    (∀ (cfg : Config) (s : Store) (key : Key) (e : Err),
      cfg.maxRequestsErr = none → cfg.intervalErr = none → cfg.burstLimitErr = none →
      s.incrementErr = some e →
      (FixedWindow.Allow cfg s key).1 = (false, some e)) ∧
    (∀ (cfg : Config) (s : Store) (key : Key) (e : Err),
      cfg.maxRequestsErr = none → cfg.intervalErr = none → cfg.burstLimitErr = none →
      s.incrementErr = some e →
      (SlidingWindow.Allow cfg s key).1 = (false, some e)) ∧
    (∀ (cfg : Config) (s : Store) (key : Key) (e : Err),
      cfg.maxRequestsErr = none → cfg.intervalErr = none → cfg.burstLimitErr = none →
      s.incrementErr = some e →
      (LeakyBucket.Allow cfg s key).1 = (false, some e)) ∧
    (∀ (cfg : TBConfig) (s : Store) (key : Key) (e : Err),
      cfg.tokensErr = none → cfg.burstLimitErr = none → cfg.tokens ≤ 0 →
      s.incrementErr = some e →
      (TokenBucket.Allow cfg s key).1 = (false, some e)) := by
  refine ⟨?_, ?_, ?_, ?_⟩
  · intro cfg s key e hmr hiv hbl hinc
    simp [FixedWindow.Allow, Store.increment, hmr, hiv, hbl, hinc]
  · intro cfg s key e hmr hiv hbl hinc
    simp [SlidingWindow.Allow, Store.increment, hmr, hiv, hbl, hinc]
  · intro cfg s key e hmr hiv hbl hinc
    simp [LeakyBucket.Allow, Store.increment, hmr, hiv, hbl, hinc]
  · intro cfg s key e htk hbl htz hinc
    have hng : ¬ cfg.tokens > 0 := by omega
    simp [TokenBucket.Allow, Store.increment, htk, hbl, hinc, hng]

/-- C8 witness: all four algorithms at a store whose `Increment` fails. -/
theorem allow_increment_error_fails_closed_witness :
    (FixedWindow.Allow exampleCfg errStore ("k1")).1 = (false, some ("boom")) ∧
    (SlidingWindow.Allow exampleCfg errStore ("k1")).1 = (false, some ("boom")) ∧
    (LeakyBucket.Allow exampleCfg errStore ("k1")).1 = (false, some ("boom")) ∧
    (TokenBucket.Allow tbZeroCfg errStore ("k1")).1 = (false, some ("boom")) :=
  ⟨allow_increment_error_fails_closed.1 exampleCfg errStore ("k1") ("boom")
      rfl rfl rfl rfl,
   allow_increment_error_fails_closed.2.1 exampleCfg errStore ("k1") ("boom")
      rfl rfl rfl rfl,
   allow_increment_error_fails_closed.2.2.1 exampleCfg errStore ("k1") ("boom")
      rfl rfl rfl rfl,
   allow_increment_error_fails_closed.2.2.2 tbZeroCfg errStore ("k1") ("boom")
      rfl rfl (by decide) rfl⟩

/-- C9: for Fixed Window, Sliding Window and Leaky Bucket, when the first
failing configuration read yields error `e`, `Allow` returns
`(false, e)` with the store exactly as it was — no `Increment`, `SetTTL`
or `Reset` has been applied, and no leak is scheduled. -/
theorem config_error_leaves_store_unmutated (cfg : Config) (s : Store) (key : Key)
    (e : Err) (hfe : cfg.firstErr = some e) :
    FixedWindow.Allow cfg s key = ((false, some e), s) ∧
    SlidingWindow.Allow cfg s key = ((false, some e), s) ∧
    LeakyBucket.Allow cfg s key = ((false, some e), s, []) := by
  rcases h1 : cfg.maxRequestsErr with _ | e1
  · rcases h2 : cfg.intervalErr with _ | e2
    · have h3 : cfg.burstLimitErr = some e := by
        simpa [Config.firstErr, h1, h2] using hfe
      refine ⟨?_, ?_, ?_⟩ <;>
        simp [FixedWindow.Allow, SlidingWindow.Allow, LeakyBucket.Allow, h1, h2, h3]
    · have he : e2 = e := by
        simpa [Config.firstErr, h1, h2] using hfe
      subst he
      refine ⟨?_, ?_, ?_⟩ <;>
        simp [FixedWindow.Allow, SlidingWindow.Allow, LeakyBucket.Allow, h1, h2]
  · have he : e1 = e := by
      simpa [Config.firstErr, h1] using hfe
    subst he
    refine ⟨?_, ?_, ?_⟩ <;>
      simp [FixedWindow.Allow, SlidingWindow.Allow, LeakyBucket.Allow, h1]

/-- C9 witness: a configuration whose `MaxRequests` read fails, applied
to a fresh store. -/
theorem config_error_leaves_store_unmutated_witness :
    FixedWindow.Allow cfgMaxErr freshStore ("w") = ((false, some ("down")), freshStore) ∧
    SlidingWindow.Allow cfgMaxErr freshStore ("w") = ((false, some ("down")), freshStore) ∧
    LeakyBucket.Allow cfgMaxErr freshStore ("w")
      = ((false, some ("down")), freshStore, []) :=
  config_error_leaves_store_unmutated cfgMaxErr freshStore ("w") ("down") rfl

/-- C10: `tokenbucket.New` discards the error of the `Interval` read
(construction with a failed read behaves exactly as with a successful
one), and has no error path of its own: it panics via `time.NewTicker`
whenever the configured interval is non-positive, and otherwise returns
the instance. -/
theorem tokenbucket_new_spec (cfg : TBConfig) (e : Err) :
    TokenBucket.New { cfg with intervalErr := some e }
        = TokenBucket.New { cfg with intervalErr := none } ∧
    (cfg.interval ≤ 0 →
      TokenBucket.New cfg
        = Except.error ("panic: non-positive interval for NewTicker")) ∧
    (0 < cfg.interval → TokenBucket.New cfg = Except.ok { stopClosed := false }) := by
  refine ⟨rfl, ?_, ?_⟩
  · intro h
    simp [TokenBucket.New, TokenBucket.startRefill, newTicker, h]
  · intro h
    have hng : ¬ cfg.interval ≤ 0 := by omega
    simp [TokenBucket.New, TokenBucket.startRefill, newTicker, hng]

/-- C10 witness: a positive-interval configuration constructs the
instance (with the `Interval` error, if any, discarded), and a
zero-interval configuration panics. -/
theorem tokenbucket_new_spec_witness :
    TokenBucket.New { tbExampleCfg with intervalErr := some ("down") }
        = TokenBucket.New { tbExampleCfg with intervalErr := none } ∧
    TokenBucket.New tbExampleCfg = Except.ok { stopClosed := false } ∧
    TokenBucket.New tbBadCfg
      = Except.error ("panic: non-positive interval for NewTicker") :=
  ⟨(tokenbucket_new_spec tbExampleCfg ("down")).1,
   (tokenbucket_new_spec tbExampleCfg ("down")).2.2 (by decide),
   (tokenbucket_new_spec tbBadCfg ("down")).2.1 (by decide)⟩
